import Mathlib

/-!
# Verification of the wifi-radar-suite scan pipeline

Shallow embedding of the scan-output parsing and normalization pipeline of
the repository (files `src/backend/api/services/wifi_service.py`,
`src/backend/distance_engine.py`, `src/backend/security_engine.py`,
`src/backend/config_manager.py`, `src/backend/vendor_service.py`), together
with theorems settling the specification claims about it.

Python strings are modelled as `List Char` (ASCII data; `str.lower` /
`str.title` are modelled on ASCII letters, which covers every string the
pipeline manipulates).  Python floats are modelled as rationals where the
code only does field arithmetic and comparisons (parsing, scoring) and as
real numbers where it uses `log10` / `**` (the distance engine).
-/

/-! ## Python string primitives (on `List Char`) -/

/-- Characters that Python's `str.strip()` removes (the `\s` class). -/
def pyWhitespace : List Char := [' ', '\t', '\n', '\r', '\x0b', '\x0c']

def isPyWs (c : Char) : Bool := pyWhitespace.contains c

/-- Python `str.strip()`: drop whitespace from both ends. -/
def pyStrip (s : List Char) : List Char :=
  (s.dropWhile isPyWs).reverse.dropWhile isPyWs |>.reverse

/-- ASCII `str.lower()`. -/
def pyLower (s : List Char) : List Char := s.map Char.toLower

/-- ASCII `str.upper()`. -/
def pyUpper (s : List Char) : List Char := s.map Char.toUpper

/-- Does `s` start with `p`?  (Python `str.startswith`.) -/
def startsWithL : List Char → List Char → Bool
  | _, [] => true
  | [], _ :: _ => false
  | c :: s, d :: p => c = d && startsWithL s p

/-- Python `needle in haystack` substring test. -/
def containsL (s pat : List Char) : Bool :=
  match s with
  | [] => startsWithL [] pat
  | _ :: rest => startsWithL s pat || containsL rest pat

/-- Python `s.split(sep)` for a one-character separator `c`
(keeps empty fields, as Python does for an explicit separator). -/
def splitOnCharL (c : Char) : List Char → List (List Char)
  | [] => [[]]
  | d :: s =>
    if d = c then [] :: splitOnCharL c s
    else
      match splitOnCharL c s with
      | [] => [[d]]
      | f :: fs => (d :: f) :: fs

/-- Python `s.split()` with no argument: split on runs of whitespace,
no empty fields. -/
def splitWsL (s : List Char) : List (List Char) :=
  match s with
  | [] => []
  | c :: rest =>
    if isPyWs c then splitWsL rest
    else
      match splitWsL rest with
      | [] => [[c]]
      | f :: fs =>
        match rest with
        | [] => [[c]]
        | d :: _ => if isPyWs d then [c] :: f :: fs else (c :: f) :: fs

/-- Python `sep.join(parts)` for a one-character separator. -/
def joinCharL (c : Char) : List (List Char) → List Char
  | [] => []
  | [s] => s
  | s :: ss => s ++ c :: joinCharL c ss

def isDigitL (c : Char) : Bool := '0' ≤ c && c ≤ '9'

/-- Numeric value of a digit list (most significant first). -/
def digitsVal (ds : List Char) : ℕ :=
  ds.foldl (fun a c => 10 * a + (c.toNat - '0'.toNat)) 0

/-- Value of a decimal fraction part: `digitsFrac ds = 0.ds…` as a rational. -/
def digitsFrac (ds : List Char) : ℚ :=
  (digitsVal ds : ℚ) / ((10 : ℚ) ^ ds.length)

/-! ## Data model (`api/models.py`)

Only the fields that `WiFiService._create_access_point` actually sets are
modelled; `vendor`, `distance`, `vulnerability_score`, `attack_vectors` and
`last_seen` keep their pydantic defaults in that code path and never vary. -/

inductive SecurityType where
  | OPEN | WEP | WPA | WPA2 | WPA3 | WPS | UNKNOWN
  deriving DecidableEq, Repr

inductive ThreatLevel where
  | LOW | MEDIUM | HIGH | CRITICAL
  deriving DecidableEq, Repr

structure AccessPoint where
  bssid : List Char
  ssid : List Char
  signal_dbm : ℚ
  frequency : ℤ
  channel : Option ℤ
  security : SecurityType
  threat_level : ThreatLevel
  confidence : ℚ
  deriving DecidableEq, Repr

namespace WiFiService

/-! ## `WiFiService` field extraction (`wifi_service.py`)

The two regular expressions used by `_parse_iw_output` are
`signal:\s*(-\d+\.?\d*)\s*dBm` and `freq:\s*(\d+)`; both start with a
literal, and their character classes are disjoint from the literals that
follow, so `re.search` is equivalent to the straightforward leftmost
scanners below (no backtracking can rescue a failed attempt). -/

/-- Try to match `\s*(-\d+\.?\d*)\s*dBm` at the start of `s`, returning the
captured value. -/
def matchSignalAt (s : List Char) : Option ℚ :=
  let s := s.dropWhile isPyWs
  match s with
  | '-' :: s =>
    let ds := s.takeWhile isDigitL
    let s := s.dropWhile isDigitL
    if ds = [] then none
    else
      let (fs, s) :=
        match s with
        | '.' :: s2 => (s2.takeWhile isDigitL, s2.dropWhile isDigitL)
        | _ => ([], s)
      let s := s.dropWhile isPyWs
      if startsWithL s ['d', 'B', 'm'] then
        some (-((digitsVal ds : ℚ) + digitsFrac fs))
      else none
  | _ => none

/-- `re.search` for the signal pattern: try every occurrence of the literal
`signal:` from the left. -/
def searchSignal : List Char → Option ℚ
  | [] => none
  | c :: rest =>
    if startsWithL (c :: rest) ['s','i','g','n','a','l',':'] then
      match matchSignalAt ((c :: rest).drop 7) with
      | some v => some v
      | none => searchSignal rest
    else searchSignal rest

/-- Try to match `\s*(\d+)` at the start of `s`. -/
def matchFreqAt (s : List Char) : Option ℤ :=
  let s := s.dropWhile isPyWs
  let ds := s.takeWhile isDigitL
  if ds = [] then none else some (digitsVal ds : ℤ)

/-- `re.search` for the frequency pattern `freq:\s*(\d+)`. -/
def searchFreq : List Char → Option ℤ
  | [] => none
  | c :: rest =>
    if startsWithL (c :: rest) ['f','r','e','q',':'] then
      match matchFreqAt ((c :: rest).drop 5) with
      | some v => some v
      | none => searchFreq rest
    else searchFreq rest

/-! ## Field normalization (`wifi_service.py`) -/

/-- `WiFiService._determine_security_type`: join the collected security
lines with spaces, lowercase, and test markers in precedence order. -/
def determine_security_type (security_info : List (List Char)) : SecurityType :=
  let security_text := pyLower (joinCharL ' ' security_info)
  if containsL security_text ['w','p','a','3'] then .WPA3
  else if containsL security_text ['w','p','a','2'] ||
          containsL security_text ['r','s','n'] then .WPA2
  else if containsL security_text ['w','p','a'] then .WPA
  else if containsL security_text ['w','e','p'] ||
          containsL security_text ['p','r','i','v','a','c','y'] then .WEP
  else if containsL security_text ['w','p','s'] then .WPS
  else if security_info = [] ||
          containsL security_text ['n','o','n','e'] then .OPEN
  else .UNKNOWN

/-- `WiFiService._frequency_to_channel`.  Python `//` is floor division,
written `Int.fdiv` here. -/
def frequency_to_channel (frequency : ℤ) : Option ℤ :=
  if frequency = 0 then none
  else if 2412 ≤ frequency ∧ frequency ≤ 2484 then
    if frequency = 2484 then some 14
    else some ((frequency - 2412).fdiv 5 + 1)
  else if 5170 ≤ frequency ∧ frequency ≤ 5825 then
    some ((frequency - 5000).fdiv 5)
  else none

/-- `WiFiService._assess_threat_level`. -/
def assess_threat_level (security : SecurityType) (signal_dbm : ℚ) : ThreatLevel :=
  match security with
  | .OPEN => if signal_dbm > -60 then .HIGH else .MEDIUM
  | .WEP | .WPS => if signal_dbm > -70 then .MEDIUM else .LOW
  | _ => .LOW

end WiFiService

namespace WiFiService

/-! ## Parsing (`wifi_service.py`, `_parse_iw_output` / `_parse_iwlist_output`)

The Python parsers keep a `current_ap` dict; a key that may be absent is an
`Option` field here, and `security_info` accumulates matching lines in
order. -/

structure CurAP where
  bssid : Option (List Char)
  ssid : Option (List Char)
  signal : Option ℚ
  freq : Option ℤ
  security_info : List (List Char)
  deriving DecidableEq, Repr

/-- `current_ap = {}` -/
def CurAP.empty : CurAP := ⟨none, none, none, none, []⟩

/-- `WiFiService._create_access_point`: `None` exactly when the stored
BSSID string is empty (the pydantic model has no further validation). -/
def create_access_point (cur : CurAP) : Option AccessPoint :=
  let bssid := cur.bssid.getD []
  let ssid := cur.ssid.getD (['H','i','d','d','e','n','_'] ++ bssid)
  let signal_dbm := cur.signal.getD (-100)
  let frequency := cur.freq.getD 0
  if bssid = [] then none
  else
    let security := determine_security_type cur.security_info
    some { bssid := bssid, ssid := ssid, signal_dbm := signal_dbm,
           frequency := frequency,
           channel := frequency_to_channel frequency,
           security := security,
           threat_level := assess_threat_level security signal_dbm,
           confidence := 4/5 }

/-- `if current_ap and 'bssid' in current_ap: … append` — a record is
emitted only when the accumulator has a `bssid` key. -/
def flushCur (cur : CurAP) : List AccessPoint :=
  match cur.bssid with
  | some _ => (create_access_point cur).toList
  | none => []

/-- BSSID extraction on a `BSS ` header line:
`line.split()[1].split('(')[0]`.  The line is stripped and starts with
`"BSS "`, so a second whitespace token always exists. -/
def extractBssid (line : List Char) : List Char :=
  (((splitWsL line).get? 1).getD []).takeWhile (· ≠ '(')

/-- One non-header line of `_parse_iw_output`'s `elif` chain applied to the
accumulator (the `BSS ` case is handled by the fold itself). -/
def iwUpdate (cur : CurAP) (line : List Char) : CurAP :=
  if startsWithL line ['S','S','I','D',':',' '] then
    { cur with ssid := some (if line.drop 6 = [] then
        ['H','i','d','d','e','n','_'] ++
          cur.bssid.getD ['U','n','k','n','o','w','n']
      else line.drop 6) }
  else if containsL line ['s','i','g','n','a','l',':'] then
    match searchSignal line with
    | some v => { cur with signal := some v }
    | none => cur
  else if containsL line ['f','r','e','q',':'] then
    match searchFreq line with
    | some v => { cur with freq := some v }
    | none => cur
  else if containsL (pyLower line) ['w','p','a'] ||
          containsL (pyLower line) ['w','e','p'] ||
          containsL (pyLower line) ['p','r','i','v','a','c','y'] then
    { cur with security_info := cur.security_info ++ [line] }
  else cur

/-- The line-by-line loop of `_parse_iw_output` (lines already split on
newlines; each is stripped on entry, as in the source). -/
def iwGo (cur : CurAP) : List (List Char) → List AccessPoint
  | [] => flushCur cur
  | l :: ls =>
    let line := pyStrip l
    if startsWithL line ['B','S','S',' '] then
      flushCur cur ++
        iwGo ⟨some (extractBssid line), none, none, none, []⟩ ls
    else
      iwGo (iwUpdate cur line) ls

/-- `WiFiService._parse_iw_output`. -/
def parse_iw_output (output : List Char) : List AccessPoint :=
  iwGo CurAP.empty (splitOnCharL '\n' output)

/-! ### `_parse_iwlist_output` helpers -/

def isHexDigitL (c : Char) : Bool :=
  ('0' ≤ c && c ≤ '9') || ('a' ≤ c && c ≤ 'f') || ('A' ≤ c && c ≤ 'F')

/-- Match the MAC pattern `hh:hh:hh:hh:hh:hh` at the start of `s`. -/
def matchMacAt (s : List Char) : Option (List Char) :=
  match s with
  | a1 :: a2 :: ':' :: b1 :: b2 :: ':' :: c1 :: c2 :: ':' :: d1 :: d2 :: ':' :: e1 :: e2 :: ':' :: f1 :: f2 :: rest =>
    let _ := rest
    if [a1,a2,b1,b2,c1,c2,d1,d2,e1,e2,f1,f2].all isHexDigitL then
      some [a1,a2,':',b1,b2,':',c1,c2,':',d1,d2,':',e1,e2,':',f1,f2]
    else none
  | _ => none

/-- `re.search` for the MAC pattern (leftmost occurrence). -/
def searchMac : List Char → Option (List Char)
  | [] => none
  | c :: rest =>
    match matchMacAt (c :: rest) with
    | some m => some m
    | none => searchMac rest

/-- Python `s.split(lit)` for a non-empty multi-character literal
separator (non-overlapping, left to right). -/
def splitOnLitL (lit : List Char) : List Char → List (List Char)
  | [] => [[]]
  | c :: s =>
    if lit ≠ [] ∧ startsWithL (c :: s) lit then
      [] :: splitOnLitL lit (s.drop (lit.length - 1))
    else
      match splitOnLitL lit s with
      | [] => [[c]]
      | f :: fs => (c :: f) :: fs
  termination_by s => s.length
  decreasing_by
    · simp only [List.length_drop, List.length_cons]; omega
    · simp

/-- Python `s.replace(old, new)` with `new = ""` (remove all occurrences). -/
def removeAllL (lit : List Char) : List Char → List Char
  | [] => []
  | c :: s =>
    if lit ≠ [] ∧ startsWithL (c :: s) lit then
      removeAllL lit (s.drop (lit.length - 1))
    else c :: removeAllL lit s
  termination_by s => s.length
  decreasing_by
    · simp only [List.length_drop, List.length_cons]; omega
    · simp

/-- Python `float(str)` on the subset the scanner can produce: optional
sign, digits with an optional decimal point (no exponent / `inf` / `nan` /
underscores, which never occur in `iwlist` numeric fields). -/
def pyFloat? (s : List Char) : Option ℚ :=
  let s := pyStrip s
  let (sign, s) : ℚ × List Char :=
    match s with
    | '-' :: r => (-1, r)
    | '+' :: r => (1, r)
    | _ => (1, s)
  let d1 := s.takeWhile isDigitL
  let s1 := s.dropWhile isDigitL
  match s1 with
  | '.' :: r =>
    let d2 := r.takeWhile isDigitL
    let s2 := r.dropWhile isDigitL
    if s2 = [] ∧ (d1 ≠ [] ∨ d2 ≠ []) then
      some (sign * ((digitsVal d1 : ℚ) + digitsFrac d2))
    else none
  | [] => if d1 ≠ [] then some (sign * (digitsVal d1 : ℚ)) else none
  | _ => none

/-- Python `int()` truncation of a float (toward zero). -/
def pyInt (q : ℚ) : ℤ := if 0 ≤ q then ⌊q⌋ else ⌈q⌉

/-- `'"'.strip` of both kinds: strip whitespace then strip `"` characters
(`.strip().strip('"')`). -/
def stripQuotes (s : List Char) : List Char :=
  ((pyStrip s).dropWhile (· = '"')).reverse.dropWhile (· = '"') |>.reverse

/-- One line of `_parse_iwlist_output`'s `elif` chain applied to the
accumulator (the `Cell … Address:` case is handled by the fold). -/
def iwlistUpdate (cur : CurAP) (line : List Char) : CurAP :=
  if containsL line ['E','S','S','I','D',':'] then
    let essid := stripQuotes
      (((splitOnLitL ['E','S','S','I','D',':'] line).get? 1).getD [])
    { cur with ssid := some (if essid = [] then
        ['H','i','d','d','e','n','_'] ++
          cur.bssid.getD ['U','n','k','n','o','w','n']
      else essid) }
  else if containsL line ['S','i','g','n','a','l',' ','l','e','v','e','l','='] then
    let signal_str :=
      ((splitWsL (((splitOnLitL
        ['S','i','g','n','a','l',' ','l','e','v','e','l','=']
        line).get? 1).getD [])).get? 0).getD []
    if containsL signal_str ['d','B','m'] then
      match pyFloat? (removeAllL ['d','B','m'] signal_str) with
      | some v => { cur with signal := some v }
      | none => cur
    else cur
  else if containsL line ['F','r','e','q','u','e','n','c','y',':'] then
    let freq_str :=
      ((splitWsL (((splitOnLitL ['F','r','e','q','u','e','n','c','y',':']
        line).get? 1).getD [])).get? 0).getD []
    match pyFloat? freq_str with
    | some ghz => { cur with freq := some (pyInt (ghz * 1000)) }
    | none => cur
  else if containsL line ['E','n','c','r','y','p','t','i','o','n'] ||
          containsL line ['A','u','t','h','e','n','t','i','c','a','t','i','o','n'] ||
          containsL line ['W','P','A'] ||
          containsL line ['W','E','P'] then
    { cur with security_info := cur.security_info ++ [line] }
  else cur

/-- The line-by-line loop of `_parse_iwlist_output`.  Note the source
keeps the old accumulator when a `Cell … Address:` line has no parseable
MAC (it only reassigns `current_ap` inside `if mac_match:`). -/
def iwlistGo (cur : CurAP) : List (List Char) → List AccessPoint
  | [] => flushCur cur
  | l :: ls =>
    let line := pyStrip l
    if containsL line ['A','d','d','r','e','s','s',':'] &&
       containsL line ['C','e','l','l'] then
      flushCur cur ++
        (match searchMac line with
         | some mac => iwlistGo ⟨some mac, none, none, none, []⟩ ls
         | none => iwlistGo cur ls)
    else
      iwlistGo (iwlistUpdate cur line) ls

/-- `WiFiService._parse_iwlist_output`. -/
def parse_iwlist_output (output : List Char) : List AccessPoint :=
  iwlistGo CurAP.empty (splitOnCharL '\n' output)

/-! ## Scan layer (`scan_wifi`, `_scan_with_iw`, `_scan_with_iwlist`)

A subprocess invocation is modelled by its observable outcome. -/

inductive CmdOutcome where
  | completed (returncode : ℤ) (stdout : List Char)
  | timeout
  | notFound
  | subprocessError
  deriving DecidableEq, Repr

/-- Non-zero exit, command-not-found, timeout, or other subprocess error. -/
def cmdFailed : CmdOutcome → Bool
  | .completed rc _ => rc ≠ 0
  | _ => true

/-- `WiFiService._scan_with_iw`: every failure mode is swallowed (logged)
and yields the empty list. -/
def scan_with_iw : CmdOutcome → List AccessPoint
  | .completed rc out => if rc = 0 then parse_iw_output out else []
  | _ => []

/-- `WiFiService._scan_with_iwlist`: same shape with the fallback parser. -/
def scan_with_iwlist : CmdOutcome → List AccessPoint
  | .completed rc out => if rc = 0 then parse_iwlist_output out else []
  | _ => []

/-- `WiFiScanResult` (fields `duration`, `interface`, `timestamp` carry
wall-clock data and are omitted). -/
structure WiFiScanResult where
  access_points : List AccessPoint
  success : Bool
  error_message : Option (List Char)
  deriving DecidableEq, Repr

/-- `WiFiService.scan_wifi`.  `interface_is_wireless` is the outcome of the
interface-availability check at the top of the method; `iw` and `iwlist`
are the outcomes of the primary and fallback subprocess invocations. -/
def scan_wifi (interface : List Char) (interface_is_wireless : Bool)
    (iw iwlist : CmdOutcome) : WiFiScanResult :=
  if !interface_is_wireless then
    { access_points := [], success := false,
      error_message := some (['I','n','t','e','r','f','a','c','e',' '] ++
        interface ++
        (' ' :: ['n','o','t',' ','f','o','u','n','d',' ','o','r',' ',
                 'n','o','t',' ','w','i','r','e','l','e','s','s'])) }
  else
    let access_points := scan_with_iw iw
    let access_points :=
      if access_points = [] then scan_with_iwlist iwlist else access_points
    { access_points := access_points, success := true, error_message := none }

end WiFiService

/-! ## Claim theorems -/

/-- C6: the frequency→channel mapping is pure and total, with
`channel 2412 = 1`, `channel 2484 = 14`, `channel 2462 = 11`,
`channel 5180 = 36`; on 2412–2484 it is the step-5 linear map starting at
channel 1 except `2484 ↦ 14`, on 5170–5825 it is `(f - 5000) / 5` with
integer (floor) division, and every frequency outside both ranges
(for example 2500 and 0) has no channel. -/
theorem C6_frequency_to_channel_spec :
    (∀ f : ℤ, WiFiService.frequency_to_channel f =
      if 2412 ≤ f ∧ f ≤ 2484 then
        (if f = 2484 then some 14 else some ((f - 2412).fdiv 5 + 1))
      else if 5170 ≤ f ∧ f ≤ 5825 then some ((f - 5000).fdiv 5)
      else none) ∧
    WiFiService.frequency_to_channel 2412 = some 1 ∧
    WiFiService.frequency_to_channel 2484 = some 14 ∧
    WiFiService.frequency_to_channel 2462 = some 11 ∧
    WiFiService.frequency_to_channel 5180 = some 36 ∧
    WiFiService.frequency_to_channel 2500 = none ∧
    WiFiService.frequency_to_channel 0 = none := by
  refine ⟨fun f => ?_, by decide, by decide, by decide, by decide, by decide, by decide⟩
  unfold WiFiService.frequency_to_channel
  rcases eq_or_ne f 0 with rfl | hf
  · simp
  · simp [hf]

/-! ### Supporting lemmas for the parser claims -/

/-- The BSSID a raw line contributes when it is a `BSS ` header with a
nonempty extracted address. -/
def headerBssid (raw : List Char) : Option (List Char) :=
  let line := pyStrip raw
  if startsWithL line ['B','S','S',' '] then
    if WiFiService.extractBssid line = [] then none
    else some (WiFiService.extractBssid line)
  else none

lemma flushCur_map_bssid_none {cur : WiFiService.CurAP} (h : cur.bssid = none) :
    (WiFiService.flushCur cur).map AccessPoint.bssid = [] := by
  simp [WiFiService.flushCur, h]

lemma flushCur_map_bssid_some {cur : WiFiService.CurAP} {b : List Char}
    (h : cur.bssid = some b) :
    (WiFiService.flushCur cur).map AccessPoint.bssid =
      if b = [] then [] else [b] := by
  simp only [WiFiService.flushCur, WiFiService.create_access_point, h]
  by_cases hb : b = [] <;> simp [hb]

lemma flushCur_map_bssid (cur : WiFiService.CurAP) :
    (WiFiService.flushCur cur).map AccessPoint.bssid =
      (cur.bssid.bind fun b => if b = [] then none else some b).toList := by
  cases h : cur.bssid with
  | none => simp [flushCur_map_bssid_none h]
  | some b =>
    rw [flushCur_map_bssid_some h]
    by_cases hb : b = [] <;> simp [hb]

lemma iwUpdate_bssid (cur : WiFiService.CurAP) (line : List Char) :
    (WiFiService.iwUpdate cur line).bssid = cur.bssid := by
  unfold WiFiService.iwUpdate
  repeat' split
  all_goals rfl

lemma iwGo_map_bssid (ls : List (List Char)) (cur : WiFiService.CurAP) :
    (WiFiService.iwGo cur ls).map AccessPoint.bssid =
      (WiFiService.flushCur cur).map AccessPoint.bssid ++
        ls.filterMap headerBssid := by
  induction ls generalizing cur with
  | nil => simp [WiFiService.iwGo]
  | cons l ls ih =>
    rw [WiFiService.iwGo]
    simp only [List.filterMap_cons]
    by_cases hb : startsWithL (pyStrip l) ['B','S','S',' '] = true
    · rw [if_pos hb, List.map_append, ih,
        @flushCur_map_bssid_some ⟨some (WiFiService.extractBssid (pyStrip l)),
          none, none, none, []⟩ (WiFiService.extractBssid (pyStrip l)) rfl]
      have hh : headerBssid l =
          if WiFiService.extractBssid (pyStrip l) = [] then none
          else some (WiFiService.extractBssid (pyStrip l)) := by
        rw [headerBssid]; simp [hb]
      rw [hh]
      by_cases he : WiFiService.extractBssid (pyStrip l) = []
      · simp [he]
      · simp [he]
    · rw [if_neg hb, ih]
      have hh : headerBssid l = none := by
        rw [headerBssid]; simp [hb]
      have hmap : (WiFiService.flushCur (WiFiService.iwUpdate cur (pyStrip l))).map
          AccessPoint.bssid = (WiFiService.flushCur cur).map AccessPoint.bssid := by
        rw [flushCur_map_bssid, flushCur_map_bssid, iwUpdate_bssid]
      rw [hmap, hh]

lemma scan_with_iw_of_failed {o : WiFiService.CmdOutcome}
    (h : WiFiService.cmdFailed o = true) : WiFiService.scan_with_iw o = [] := by
  cases o with
  | completed rc out =>
    simp only [WiFiService.cmdFailed, decide_eq_true_eq] at h
    simp [WiFiService.scan_with_iw, h]
  | timeout => rfl
  | notFound => rfl
  | subprocessError => rfl

lemma scan_with_iwlist_of_failed {o : WiFiService.CmdOutcome}
    (h : WiFiService.cmdFailed o = true) : WiFiService.scan_with_iwlist o = [] := by
  cases o with
  | completed rc out =>
    simp only [WiFiService.cmdFailed, decide_eq_true_eq] at h
    simp [WiFiService.scan_with_iwlist, h]
  | timeout => rfl
  | notFound => rfl
  | subprocessError => rfl

/-- C5 (amended): `_parse_iw_output` emits exactly one record, in input
order, per `BSS ` header line with a nonempty extracted BSSID; it performs
no BSSID deduplication, so when two blocks share a BSSID both records are
kept (neither the earlier nor the later occurrence is discarded). -/
theorem C5_parse_keeps_every_bssid_occurrence (output : List Char) :
    (WiFiService.parse_iw_output output).map AccessPoint.bssid =
      (splitOnCharL '\n' output).filterMap headerBssid := by
  rw [WiFiService.parse_iw_output, iwGo_map_bssid,
    @flushCur_map_bssid_none WiFiService.CurAP.empty rfl]
  rfl

/-- C5 counterexample: a raw text with two `BSS` blocks carrying the same
BSSID parses to two records sharing that BSSID, refuting both the
uniqueness of BSSIDs within one scan result and the discarding of the
earlier occurrence. -/
theorem C5_counterexample :
    (WiFiService.parse_iw_output
        ("BSS AA:AA:AA:AA:AA:AA(on wlan0)\nSSID: One\nBSS AA:AA:AA:AA:AA:AA(on wlan0)\nSSID: Two").data).map
      AccessPoint.bssid =
      [("AA:AA:AA:AA:AA:AA").data, ("AA:AA:AA:AA:AA:AA").data] := by
  decide

/-- C3 (amended): the security-type determination classifies a block as
WPA2 whenever the lowercased join of its *collected* security lines
contains an `rsn` marker and no `wpa3` marker, and such a block is never
classified WPA; however the parser's collection step
(`_parse_iw_output` line 344) only collects lines containing a
`wpa`/`wep`/`privacy` substring, so an RSN marker on its own line never
reaches the classifier (see the counterexample). -/
theorem C3_rsn_classifies_wpa2 :
    (∀ security_info : List (List Char),
      containsL (pyLower (joinCharL ' ' security_info)) ['r','s','n'] = true →
      containsL (pyLower (joinCharL ' ' security_info)) ['w','p','a','3'] = false →
      WiFiService.determine_security_type security_info = SecurityType.WPA2) ∧
    (∀ security_info : List (List Char),
      containsL (pyLower (joinCharL ' ' security_info)) ['r','s','n'] = true →
      WiFiService.determine_security_type security_info ≠ SecurityType.WPA) := by
  constructor
  · intro info h1 h2
    unfold WiFiService.determine_security_type
    simp [h1, h2]
  · intro info h1
    unfold WiFiService.determine_security_type
    by_cases h3 : containsL (pyLower (joinCharL ' ' info)) ['w','p','a','3'] = true
    · simp [h1, h3]
    · simp [h1, h3]

/-- Witness for C3: a block whose single collected line carries both
markers (as in transition-mode APs that print them on one line) is
classified WPA2. -/
theorem C3_witness :
    WiFiService.determine_security_type [("RSN: Version: 1 WPA: Version: 1").data] =
      SecurityType.WPA2 :=
  C3_rsn_classifies_wpa2.1 _ (by decide) (by decide)

/-- C3 counterexample: a block whose raw lines contain both an `RSN`
marker and a `WPA` marker — on separate lines, as `iw` prints them — is
classified WPA by the full pipeline, because the `RSN` line contains no
`wpa`/`wep`/`privacy` substring and is never collected. -/
theorem C3_counterexample :
    containsL ("BSS aa:bb:cc:dd:ee:ff(on wlan0)\nRSN: * Version: 1\nWPA: * Version: 1").data
      ['R','S','N'] = true ∧
    containsL ("BSS aa:bb:cc:dd:ee:ff(on wlan0)\nRSN: * Version: 1\nWPA: * Version: 1").data
      ['W','P','A'] = true ∧
    (WiFiService.parse_iw_output
        ("BSS aa:bb:cc:dd:ee:ff(on wlan0)\nRSN: * Version: 1\nWPA: * Version: 1").data).map
      AccessPoint.security = [SecurityType.WPA] := by
  refine ⟨by decide, by decide, by decide⟩

/-- C1 (amended): when both the primary `iw` scan and the fallback
`iwlist` scan fail (non-zero exit, command-not-found, timeout or other
subprocess error), `scan_wifi` returns a *success* result with an empty
access-point list and no error cause; a failure result is produced only by
the interface-availability check. -/
theorem C1_both_fail_returns_success_empty :
    (∀ (interface : List Char) (iw iwlist : WiFiService.CmdOutcome),
      WiFiService.cmdFailed iw = true → WiFiService.cmdFailed iwlist = true →
      WiFiService.scan_wifi interface true iw iwlist =
        { access_points := [], success := true, error_message := none }) ∧
    (∀ (interface : List Char) (iw iwlist : WiFiService.CmdOutcome),
      (WiFiService.scan_wifi interface false iw iwlist).success = false) := by
  constructor
  · intro i iw iwl h1 h2
    rw [WiFiService.scan_wifi]
    simp [scan_with_iw_of_failed h1, scan_with_iwlist_of_failed h2]
  · intro i iw iwl
    rfl

/-- Witness for C1 at a concrete pair of failed commands. -/
theorem C1_witness :
    WiFiService.scan_wifi ("wlan0").data true WiFiService.CmdOutcome.notFound
        WiFiService.CmdOutcome.subprocessError =
      { access_points := [], success := true, error_message := none } :=
  C1_both_fail_returns_success_empty.1 _ _ _ (by decide) (by decide)

/-- C1 counterexample: with the scenario of the claim — timeout of both
the primary and the secondary command — `scan_wifi` reports success with
an empty record list and carries no failure cause, contradicting the
claimed Failure result. -/
theorem C1_counterexample :
    WiFiService.cmdFailed WiFiService.CmdOutcome.timeout = true ∧
    WiFiService.scan_wifi ("wlan0").data true WiFiService.CmdOutcome.timeout
        WiFiService.CmdOutcome.timeout =
      { access_points := [], success := true, error_message := none } := by
  exact ⟨rfl, rfl⟩

namespace ConfigManager

/-! ## `config_manager.py`

The repository ships no `config.json`, so `ConfigurationManager` runs on
`_get_default_config()`: the threat-level table is the literal default of
`get_threat_level_for_score`, and the distance-calculation signal-range and
frequency-correction tables are empty. -/

/-- One entry of the threat-level threshold table (an entry with no
`color` key never occurs in the default table and is not modelled). -/
structure ThreatEntry where
  level : List Char
  min : ℤ
  color : List Char
  deriving DecidableEq, Repr

/-- The inline default threat-level table, in source (dict-insertion)
order. -/
def defaultThreatLevels : List ThreatEntry :=
  [⟨("CRITICAL").data, 80, ("#ff4444").data⟩,
   ⟨("HIGH").data, 60, ("#ff8800").data⟩,
   ⟨("MEDIUM").data, 40, ("#ffaa00").data⟩,
   ⟨("LOW").data, 0, ("#88ff88").data⟩]

/-- `ConfigurationManager.get_threat_level_for_score`: stable-sort the
table by `min` descending (Python `sorted(..., reverse=True)` is stable),
take the first entry whose minimum is `≤ score`, and fall back to
`("LOW", "#88ff88")`. -/
def get_threat_level_for_score (threat_levels : List ThreatEntry)
    (score : ℤ) : (List Char) × (List Char) :=
  match (threat_levels.insertionSort (fun a b => b.min ≤ a.min)).find?
      (fun e => score ≥ e.min) with
  | some e => (e.level, e.color)
  | none => (("LOW").data, ("#88ff88").data)

/-- Rank of a threat-level name in the LOW < MEDIUM < HIGH < CRITICAL
order (anything else ranks lowest). -/
def threatRank (l : List Char) : ℕ :=
  if l = ("MEDIUM").data then 1
  else if l = ("HIGH").data then 2
  else if l = ("CRITICAL").data then 3
  else 0

lemma defaultThreatLevels_already_sorted :
    defaultThreatLevels.insertionSort (fun a b => b.min ≤ a.min) =
      defaultThreatLevels := by decide

lemma get_threat_level_default_closed (s : ℤ) :
    get_threat_level_for_score defaultThreatLevels s =
      if s ≥ 80 then (("CRITICAL").data, ("#ff4444").data)
      else if s ≥ 60 then (("HIGH").data, ("#ff8800").data)
      else if s ≥ 40 then (("MEDIUM").data, ("#ffaa00").data)
      else if s ≥ 0 then (("LOW").data, ("#88ff88").data)
      else (("LOW").data, ("#88ff88").data) := by
  rw [get_threat_level_for_score, defaultThreatLevels_already_sorted]
  by_cases h80 : s ≥ 80 <;> by_cases h60 : s ≥ 60 <;>
    by_cases h40 : s ≥ 40 <;> by_cases h0 : s ≥ 0 <;>
    first
      | (exfalso; omega)
      | simp [defaultThreatLevels, List.find?, h80, h60, h40, h0]

end ConfigManager

/-- C8: the threshold table is evaluated from the highest minimum down
(the closed form below) and the resulting threat level is monotone: a
higher score never gets a strictly lower threat level. -/
theorem C8_threat_level_monotone :
    (∀ s : ℤ, ConfigManager.get_threat_level_for_score
        ConfigManager.defaultThreatLevels s =
      if s ≥ 80 then (("CRITICAL").data, ("#ff4444").data)
      else if s ≥ 60 then (("HIGH").data, ("#ff8800").data)
      else if s ≥ 40 then (("MEDIUM").data, ("#ffaa00").data)
      else (("LOW").data, ("#88ff88").data)) ∧
    (∀ s1 s2 : ℤ, s1 ≤ s2 →
      ConfigManager.threatRank
          (ConfigManager.get_threat_level_for_score
            ConfigManager.defaultThreatLevels s1).1 ≤
        ConfigManager.threatRank
          (ConfigManager.get_threat_level_for_score
            ConfigManager.defaultThreatLevels s2).1) := by
  have closed : ∀ s : ℤ, ConfigManager.get_threat_level_for_score
      ConfigManager.defaultThreatLevels s =
      if s ≥ 80 then (("CRITICAL").data, ("#ff4444").data)
      else if s ≥ 60 then (("HIGH").data, ("#ff8800").data)
      else if s ≥ 40 then (("MEDIUM").data, ("#ffaa00").data)
      else (("LOW").data, ("#88ff88").data) := by
    intro s
    rw [ConfigManager.get_threat_level_default_closed]
    by_cases h0 : s ≥ 0 <;> simp [h0]
  refine ⟨closed, fun s1 s2 h => ?_⟩
  rw [closed s1, closed s2]
  split_ifs <;> first | decide | omega
  
/-- Witness for C8 at the concrete pair 30 ≤ 90. -/
theorem C8_witness :
    ConfigManager.threatRank
        (ConfigManager.get_threat_level_for_score
          ConfigManager.defaultThreatLevels 30).1 ≤
      ConfigManager.threatRank
        (ConfigManager.get_threat_level_for_score
          ConfigManager.defaultThreatLevels 90).1 :=
  C8_threat_level_monotone.2 30 90 (by decide)

/-- C9: `get_threat_level_for_score` is total for every threshold table
and score: when no entry's minimum is `≤ score` (for example the empty
table) it returns the `("LOW", "#88ff88")` fallback, and in every case it
returns either that fallback or a matching table entry. -/
theorem C9_threat_level_total :
    (∀ (table : List ConfigManager.ThreatEntry) (score : ℤ),
      (∀ e ∈ table, score < e.min) →
      ConfigManager.get_threat_level_for_score table score =
        (("LOW").data, ("#88ff88").data)) ∧
    (∀ (table : List ConfigManager.ThreatEntry) (score : ℤ),
      ConfigManager.get_threat_level_for_score table score =
          (("LOW").data, ("#88ff88").data) ∨
        ∃ e ∈ table, score ≥ e.min ∧
          ConfigManager.get_threat_level_for_score table score =
            (e.level, e.color)) := by
  constructor
  · intro table score hall
    rw [ConfigManager.get_threat_level_for_score]
    have hnone : (table.insertionSort (fun a b => b.min ≤ a.min)).find?
        (fun e => score ≥ e.min) = none := by
      rw [List.find?_eq_none]
      intro e he
      have : e ∈ table :=
        (List.perm_insertionSort (fun a b => b.min ≤ a.min) table).mem_iff.mp he
      simp only [decide_eq_true_eq]
      exact not_le.mpr (hall e this)
    rw [hnone]
  · intro table score
    rw [ConfigManager.get_threat_level_for_score]
    cases hf : (table.insertionSort (fun a b => b.min ≤ a.min)).find?
        (fun e => score ≥ e.min) with
    | none => left; rfl
    | some e =>
      right
      refine ⟨e, ?_, ?_, rfl⟩
      · exact (List.perm_insertionSort (fun a b => b.min ≤ a.min) table).mem_iff.mp
          (List.mem_of_find?_eq_some hf)
      · have := List.find?_some hf
        simpa using this

/-- Witness for C9: the empty table and score 50 hit the fallback. -/
theorem C9_witness :
    ConfigManager.get_threat_level_for_score [] 50 =
      (("LOW").data, ("#88ff88").data) :=
  C9_threat_level_total.1 [] 50 (by simp)

namespace SecurityEngine

/-! ## `security_engine.py`

Only the attack-vector assembly of `analyze_access_point` is claim-relevant
here.  The engine runs on the default configuration (no `config.json`), so
the security profiles are the five literals of `_get_default_config`. -/

structure SecurityProfile where
  base_score : ℤ
  risk_level : List Char
  attack_vectors : List (List Char)
  deriving DecidableEq, Repr

/-- `security_analysis.vulnerability_scoring.security_types` of
`_get_default_config`, in insertion order. -/
def security_profiles : List ((List Char) × SecurityProfile) :=
  [(("Open").data, ⟨90, ("CRITICAL").data, [("Direct Access").data]⟩),
   (("WEP").data, ⟨85, ("CRITICAL").data, [("WEP Cracking").data]⟩),
   (("WPA").data, ⟨40, ("HIGH").data, [("Handshake Capture").data]⟩),
   (("WPA2").data, ⟨30, ("MEDIUM").data, [("PMKID Attack").data]⟩),
   (("WPA3").data, ⟨10, ("LOW").data, [("SAE Attack").data]⟩)]

/-- `ConfigurationManager.get_security_profile`. -/
def get_security_profile (security_type : List Char) : Option SecurityProfile :=
  (security_profiles.find? (fun p => p.1 = security_type)).map (fun p => p.2)

/-- The profile actually used by `analyze_access_point`: the matched one,
falling back to the WPA2 profile (which exists in the default table, so
the final arm is unreachable and mirrors the WPA2 literal). -/
def profileFor (security : List Char) : SecurityProfile :=
  match get_security_profile security with
  | some p => p
  | none =>
    match get_security_profile (("WPA2").data) with
    | some p => p
    | none => ⟨30, ("MEDIUM").data, [("PMKID Attack").data]⟩

/-- The alternatives of the four `default_names` SSID regexes
`^(…|…)$`.  With `re.search` the anchors make each equivalent to string
equality, except that `$` also matches just before one trailing
newline. -/
def defaultNameAlts : List (List Char) :=
  [("default").data, ("admin").data, ("router").data, ("root").data,
   ("linksys").data, ("netgear").data, ("dlink").data, ("tplink").data,
   ("asus").data, ("belkin").data, ("zyxel").data, ("huawei").data,
   ("motorola").data, ("wifi").data, ("wireless").data,
   ("internet").data, ("broadband").data]

def defaultNameMatch (s : List Char) : Bool :=
  defaultNameAlts.any (fun a => s = a || s = a ++ ['\n'])

/-- `SecurityAnalysisEngine._get_additional_attack_vectors` (the
`frequency` argument is accepted and unused, as in the source). -/
def additional_attack_vectors (security : List Char) (signal_dbm : ℚ)
    (ssid : List Char) (frequency : ℤ) : List (List Char) :=
  let _ := frequency
  let ssid_lower := if ssid = [] then [] else pyLower ssid
  (if signal_dbm > -40 then
    [("Physical proximity attacks").data,
     ("RF jamming attacks").data,
     ("Rogue AP setup").data]
   else []) ++
  (if (security = ("Open").data ∨ security = ("WEP").data) ∧ signal_dbm > -60 then
    [("Wardriving attacks").data,
     ("Passive monitoring").data,
     ("Session hijacking").data]
   else []) ++
  (if defaultNameMatch ssid_lower then
    [("Default credential attacks").data,
     ("Firmware vulnerability exploitation").data,
     ("Router management interface attacks").data]
   else []) ++
  (if security = ("WPA").data ∨ security = ("WPA2").data then
    [("WPS PIN brute force").data, ("Pixie Dust attack").data]
   else [])

/-- The attack-vector list of `analyze_access_point` before
deduplication: the profile's base vectors followed by the additional
vectors. -/
def rawAttackVectors (security : List Char) (signal_dbm : ℚ)
    (ssid : List Char) (frequency : ℤ) : List (List Char) :=
  (profileFor security).attack_vectors ++
    additional_attack_vectors security signal_dbm ssid frequency

/-- A list is a possible CPython enumeration of `set(l)`: no duplicates
and exactly the elements of `l` (the iteration order of a `set` of
strings is unspecified — hash-randomized across processes). -/
def PySetList (l out : List (List Char)) : Prop :=
  out.Nodup ∧ (∀ x ∈ out, x ∈ l) ∧ (∀ x ∈ l, x ∈ out)

instance (l out : List (List Char)) : Decidable (PySetList l out) := by
  unfold PySetList; infer_instance

/-- `attack_vectors=list(set(attack_vectors))` in `analyze_access_point`,
with the set-enumeration order passed in explicitly. -/
def analyze_attack_vectors (setEnum : List (List Char) → List (List Char))
    (security : List Char) (signal_dbm : ℚ) (ssid : List Char)
    (frequency : ℤ) : List (List Char) :=
  setEnum (rawAttackVectors security signal_dbm ssid frequency)

/-- Order-preserving deduplication (first occurrence kept) — what the
claim asserts `list(set(...))` computes. -/
def dedupFirstAux (seen : List (List Char)) : List (List Char) → List (List Char)
  | [] => []
  | x :: xs =>
    if x ∈ seen then dedupFirstAux seen xs
    else x :: dedupFirstAux (x :: seen) xs

def dedupFirst (l : List (List Char)) : List (List Char) :=
  dedupFirstAux [] l

lemma mem_dedupFirstAux {x : List Char} (seen l : List (List Char)) :
    x ∈ dedupFirstAux seen l ↔ x ∈ l ∧ x ∉ seen := by
  induction l generalizing seen with
  | nil => simp [dedupFirstAux]
  | cons y ys ih =>
    rw [dedupFirstAux]
    by_cases hy : y ∈ seen
    · rw [if_pos hy, ih]
      simp only [List.mem_cons]
      constructor
      · rintro ⟨h1, h2⟩; exact ⟨Or.inr h1, h2⟩
      · rintro ⟨rfl | h1, h2⟩
        · exact absurd hy h2
        · exact ⟨h1, h2⟩
    · rw [if_neg hy]
      simp only [List.mem_cons, ih]
      constructor
      · rintro (rfl | ⟨h1, h2⟩)
        · exact ⟨Or.inl rfl, hy⟩
        · exact ⟨Or.inr h1, fun hs => h2 (Or.inr hs)⟩
      · rintro ⟨rfl | h1, h2⟩
        · exact Or.inl rfl
        · by_cases hxy : x = y
          · exact Or.inl hxy
          · refine Or.inr ⟨h1, fun hs => ?_⟩
            rcases hs with h | h
            · exact hxy h
            · exact h2 h

lemma nodup_dedupFirstAux (seen l : List (List Char)) :
    (dedupFirstAux seen l).Nodup := by
  induction l generalizing seen with
  | nil => simp [dedupFirstAux]
  | cons y ys ih =>
    rw [dedupFirstAux]
    by_cases hy : y ∈ seen
    · rw [if_pos hy]; exact ih seen
    · rw [if_neg hy]
      refine List.nodup_cons.mpr ⟨?_, ih (y :: seen)⟩
      rw [mem_dedupFirstAux]
      rintro ⟨-, h2⟩
      exact h2 (List.mem_cons_self y seen)

lemma pySetList_dedupFirst (l : List (List Char)) : PySetList l (dedupFirst l) := by
  refine ⟨nodup_dedupFirstAux [] l, ?_, ?_⟩
  · intro x hx
    exact ((mem_dedupFirstAux [] l).mp hx).1
  · intro x hx
    rw [dedupFirst, mem_dedupFirstAux]
    exact ⟨hx, by simp⟩

end SecurityEngine

/-- C4 (amended): for every set-enumeration order, the `attack_vectors`
list of an analysis result contains exactly the distinct vectors of the
staged concatenation (profile base vectors, then signal-derived, then
SSID-derived, then protocol-specific), each exactly once — but in an
implementation-defined order: `list(set(...))` does not preserve the order
of first occurrence. -/
theorem C4_attack_vectors_dedup_content
    (setEnum : List (List Char) → List (List Char))
    (hEnum : ∀ l, SecurityEngine.PySetList l (setEnum l))
    (security : List Char) (signal_dbm : ℚ) (ssid : List Char)
    (frequency : ℤ) :
    (SecurityEngine.analyze_attack_vectors setEnum security signal_dbm
      ssid frequency).Nodup ∧
    ∀ v, v ∈ SecurityEngine.analyze_attack_vectors setEnum security
        signal_dbm ssid frequency ↔
      v ∈ SecurityEngine.rawAttackVectors security signal_dbm ssid frequency := by
  obtain ⟨h1, h2, h3⟩ :=
    hEnum (SecurityEngine.rawAttackVectors security signal_dbm ssid frequency)
  exact ⟨h1, fun v => ⟨fun hv => h2 v hv, fun hv => h3 v hv⟩⟩

/-- Witness for C4 with the order-preserving enumeration at concrete
inputs. -/
theorem C4_witness :
    (SecurityEngine.analyze_attack_vectors SecurityEngine.dedupFirst
      (("Open").data) (-50) (("admin").data) 2437).Nodup ∧
    ∀ v, v ∈ SecurityEngine.analyze_attack_vectors SecurityEngine.dedupFirst
        (("Open").data) (-50) (("admin").data) 2437 ↔
      v ∈ SecurityEngine.rawAttackVectors (("Open").data) (-50)
        (("admin").data) 2437 :=
  C4_attack_vectors_dedup_content SecurityEngine.dedupFirst
    (fun l => SecurityEngine.pySetList_dedupFirst l)
    (("Open").data) (-50) (("admin").data) 2437

/-- C4 counterexample: the reverse of the order-preserving deduplication
is also a legitimate `set` enumeration (no duplicates, same elements), and
with it the assembled `attack_vectors` differs from the
first-occurrence-order deduplication of the staged concatenation — so the
claimed order-preserving equality does not hold for `list(set(...))`. -/
theorem C4_counterexample :
    (∀ l, SecurityEngine.PySetList l ((SecurityEngine.dedupFirst l).reverse)) ∧
    SecurityEngine.analyze_attack_vectors
        (fun l => (SecurityEngine.dedupFirst l).reverse)
        (("WPA").data) (-30) (("linksys").data) 2412 ≠
      SecurityEngine.dedupFirst
        (SecurityEngine.rawAttackVectors (("WPA").data) (-30)
          (("linksys").data) 2412) := by
  constructor
  · intro l
    obtain ⟨h1, h2, h3⟩ := SecurityEngine.pySetList_dedupFirst l
    exact ⟨List.nodup_reverse.mpr h1,
      fun x hx => h2 x (List.mem_reverse.mp hx),
      fun x hx => List.mem_reverse.mpr (h3 x hx)⟩
  · decide

namespace VendorService

/-! ## `vendor_service.py`

With no `config.json` the vendor configuration is empty, so at runtime the
OUI database is the (empty) fallback table; `get_vendor` is nevertheless
modelled over an arbitrary database, as the lookup logic is
database-independent. -/

/-- `VendorDetectionService._normalize_oui`. -/
def normalize_oui (oui : List Char) : List Char :=
  let cleaned := oui.filter (fun c =>
    WiFiService.isHexDigitL c || c = ':' || c = '-')
  let cleaned :=
    if ¬ cleaned.contains ':' ∧ ¬ cleaned.contains '-' then
      if cleaned.length ≥ 6 then
        cleaned.take 2 ++ ':' :: ((cleaned.drop 2).take 2 ++
          ':' :: (cleaned.drop 4).take 2)
      else cleaned
    else if cleaned.contains '-' then
      cleaned.map (fun c => if c = '-' then ':' else c)
    else cleaned
  pyUpper cleaned

def endsWithL (s p : List Char) : Bool := startsWithL s.reverse p.reverse

/-- ASCII `str.title()`: the first letter of each run of letters is
uppercased, the rest lowercased. -/
def pyTitleAux : Bool → List Char → List Char
  | _, [] => []
  | prevAlpha, c :: s =>
    if c.isAlpha then
      (if prevAlpha then c.toLower else c.toUpper) :: pyTitleAux true s
    else c :: pyTitleAux false s

def pyTitle (s : List Char) : List Char := pyTitleAux false s

/-- The corporate suffixes stripped by `_clean_vendor_name`, in source
order. -/
def vendorSuffixes : List (List Char) :=
  [(", INC.").data, (", INC").data, (", LLC").data, (", LTD.").data,
   (", LTD").data, (", CORP.").data, (", CORP").data, (", CO.").data,
   (", CO").data, ("CORPORATION").data, ("INCORPORATED").data,
   ("LIMITED").data]

/-- `VendorDetectionService._clean_vendor_name`. -/
def clean_vendor_name (vendor : List Char) : List Char :=
  if vendor = [] then ("Unknown").data
  else
    let vendor := pyStrip vendor
    let vendor :=
      match vendorSuffixes.find?
          (fun suf => endsWithL (pyUpper vendor) suf) with
      | some suf => pyStrip (vendor.take (vendor.length - suf.length))
      | none => vendor
    let vendor := pyTitle vendor
    if startsWithL (pyLower vendor) (("apple").data) then
      ("Apple Inc.").data
    else if startsWithL (pyLower vendor) (("cisco").data) then
      ("Cisco Systems").data
    else if startsWithL (pyLower vendor) (("microsoft").data) then
      ("Microsoft Corporation").data
    else vendor.take 50

/-- Dictionary lookup `self.oui_database.get(key)`. -/
def dbGet (db : List ((List Char) × List Char)) (key : List Char) :
    Option (List Char) :=
  (db.find? (fun p => p.1 = key)).map (fun p => p.2)

/-- `VendorDetectionService.get_vendor`.  The local variable `oui` of the
source is written out; the two `for separator in ['-', '']` retries
replace the colons of the normalized OUI by `-` and by nothing. -/
def get_vendor (db : List ((List Char) × List Char))
    (mac_address : List Char) : List Char :=
  if mac_address = [] ∨ mac_address.length < 8 then ("Unknown").data
  else
    match dbGet db (normalize_oui (mac_address.take 8)) with
    | some vendor => clean_vendor_name vendor
    | none =>
      match dbGet db ((normalize_oui (mac_address.take 8)).map
          (fun c => if c = ':' then '-' else c)) with
      | some vendor => clean_vendor_name vendor
      | none =>
        match dbGet db ((normalize_oui (mac_address.take 8)).filter
            (fun c => c ≠ ':')) with
        | some vendor => clean_vendor_name vendor
        | none => ("Unknown").data

/-- A successful dictionary lookup returns the value of some entry. -/
lemma dbGet_mem {db : List ((List Char) × List Char)} {key v : List Char}
    (h : dbGet db key = some v) : ∃ e ∈ db, v = e.2 := by
  rw [dbGet] at h
  cases h2 : db.find? (fun p => p.1 = key) with
  | none => rw [h2] at h; cases h
  | some e =>
    rw [h2] at h
    exact ⟨e, List.mem_of_find?_eq_some h2, (Option.some.inj h).symm⟩

end VendorService

/-- C10: `get_vendor` is total over arbitrary databases and input
strings: every MAC string that is empty or shorter than 8 characters maps
to `"Unknown"`, and every result is either `"Unknown"` or the cleaned
vendor name of a database entry — never an error. -/
theorem C10_get_vendor_total :
    (∀ (db : List ((List Char) × List Char)) (mac : List Char),
      mac.length < 8 →
      VendorService.get_vendor db mac = ("Unknown").data) ∧
    (∀ (db : List ((List Char) × List Char)) (mac : List Char),
      VendorService.get_vendor db mac = ("Unknown").data ∨
        ∃ e ∈ db, VendorService.get_vendor db mac =
          VendorService.clean_vendor_name e.2) := by
  constructor
  · intro db mac h
    rw [VendorService.get_vendor, if_pos (Or.inr h)]
  · intro db mac
    rw [VendorService.get_vendor]
    by_cases h : mac = [] ∨ mac.length < 8
    · rw [if_pos h]; left; rfl
    · rw [if_neg h]
      cases h1 : VendorService.dbGet db
          (VendorService.normalize_oui (mac.take 8)) with
      | some v =>
        obtain ⟨e, he, rfl⟩ := VendorService.dbGet_mem h1
        exact Or.inr ⟨e, he, rfl⟩
      | none =>
        cases h2 : VendorService.dbGet db
            ((VendorService.normalize_oui (mac.take 8)).map
              (fun c => if c = ':' then '-' else c)) with
        | some v =>
          obtain ⟨e, he, rfl⟩ := VendorService.dbGet_mem h2
          exact Or.inr ⟨e, he, rfl⟩
        | none =>
          cases h3 : VendorService.dbGet db
              ((VendorService.normalize_oui (mac.take 8)).filter
                (fun c => c ≠ ':')) with
          | some v =>
            obtain ⟨e, he, rfl⟩ := VendorService.dbGet_mem h3
            exact Or.inr ⟨e, he, rfl⟩
          | none =>
            exact Or.inl rfl

/-- Witness for C10: a 5-character MAC string maps to `"Unknown"` for any
database. -/
theorem C10_witness :
    VendorService.get_vendor
        [(("AA:BB:CC").data, ("Apple, Inc.").data)] (("AA:BB").data) =
      ("Unknown").data :=
  C10_get_vendor_total.1 _ _ (by decide)


namespace DistanceEngine

/-! ## `distance_engine.py`

Python floats are modelled as real numbers.  With no `config.json`,
`get_distance_formula_params()` and `get_frequency_corrections()` are
empty, so the log-normal parameters take their literal defaults
(`n = 2.0`, `d0 = 1.0`, `pl_d0 = 40.0`) and both correction tables are
empty.  Each per-formula `except (ValueError, ZeroDivisionError)` clause
is modelled by its trigger: `math.log10` of a non-positive argument. -/

noncomputable section

def log10 (x : ℝ) : ℝ := Real.logb 10 x

def LIGHT_SPEED : ℝ := 299792458

/-- `DistanceCalculationEngine._calculate_fspl_distance`; the `50.0`
branch is the `ValueError` handler (`log10` of `frequency_mhz * 1e6 ≤ 0`). -/
def calculate_fspl_distance (signal_dbm : ℝ) (frequency_mhz : ℤ)
    (tx_power_dbm : ℝ) : ℝ :=
  if (frequency_mhz : ℝ) * 1000000 ≤ 0 then 50.0
  else
    max 0.1 ((10 : ℝ) ^
      (((tx_power_dbm - signal_dbm) - 20 * log10 ((frequency_mhz : ℝ) * 1000000)
        - 20 * log10 (4 * Real.pi / LIGHT_SPEED)) / 20))

/-- `DistanceCalculationEngine._calculate_log_normal_distance` with the
default environment parameters (`n = 2.0`, `d0 = 1.0`, `pl_d0 = 40.0`);
no `ValueError`/`ZeroDivisionError` is reachable (no logarithm and
`10 * n ≠ 0`). -/
def calculate_log_normal_distance (signal_dbm : ℝ) (frequency_mhz : ℤ)
    (tx_power_dbm : ℝ) : ℝ :=
  max 0.1 ((1.0 : ℝ) * (10 : ℝ) ^
    (((tx_power_dbm - signal_dbm) -
      (40.0 + if (frequency_mhz : ℝ) / 1000 > 5 then 5 else 0)) / (10 * 2.0)))

/-- `DistanceCalculationEngine._calculate_itu_indoor_distance`; the `50.0`
branch is the `ValueError` handler (`log10` of
`frequency_ghz * 1000 ≤ 0`). -/
def calculate_itu_indoor_distance (signal_dbm : ℝ) (frequency_mhz : ℤ)
    (tx_power_dbm : ℝ) : ℝ :=
  if (frequency_mhz : ℝ) / 1000 * 1000 ≤ 0 then 50.0
  else
    max 0.1 ((10 : ℝ) ^
      (((tx_power_dbm - signal_dbm) - 20 * log10 ((frequency_mhz : ℝ) / 1000 * 1000)
        - 15 + 28) /
        (if (frequency_mhz : ℝ) / 1000 < 5 then (28 : ℝ) else 30)))

/-- `DistanceCalculationEngine._estimate_tx_power`. -/
def estimate_tx_power (frequency_mhz : ℤ) : ℝ :=
  if 2400 ≤ frequency_mhz ∧ frequency_mhz ≤ 2500 then 20.0
  else if 5000 ≤ frequency_mhz ∧ frequency_mhz ≤ 6000 then 23.0
  else 20.0

/-- `SignalRange` of `config_manager.py` as used by the distance engine. -/
structure SignalRange where
  min_dbm : ℝ
  multiplier : ℝ

/-- One band of the `frequency_corrections` table. -/
structure FreqBand where
  freq_min : ℝ
  freq_max : ℝ
  multiplier : ℝ

open Classical in
/-- `ConfigurationManager.get_signal_range_info`: first range (in table
order) whose minimum the signal reaches. -/
def get_signal_range_info (ranges : List SignalRange) (signal_dbm : ℝ) :
    Option SignalRange :=
  match ranges with
  | [] => none
  | r :: rest =>
    if signal_dbm ≥ r.min_dbm then some r
    else get_signal_range_info rest signal_dbm

/-- The distance-calculation signal-range table under the default
configuration: empty. -/
def defaultSignalRanges : List SignalRange := []

/-- The frequency-correction table under the default configuration:
empty. -/
def defaultFreqBands : List FreqBand := []

open Classical in
/-- The frequency-correction loop of `_apply_corrections` (first matching
band wins, then `break`). -/
def freqBandMultiplier (bands : List FreqBand) (frequency_mhz : ℤ) : ℝ :=
  match bands with
  | [] => 1
  | b :: rest =>
    if b.freq_min ≤ (frequency_mhz : ℝ) ∧ (frequency_mhz : ℝ) ≤ b.freq_max then
      b.multiplier
    else freqBandMultiplier rest frequency_mhz

open Classical in
/-- `DistanceCalculationEngine._apply_corrections`. -/
def apply_corrections (ranges : List SignalRange) (bands : List FreqBand)
    (base_distance signal_dbm : ℝ) (frequency_mhz : ℤ) : ℝ :=
  let d := base_distance
  let d :=
    match get_signal_range_info ranges signal_dbm with
    | some r => d * r.multiplier
    | none => d
  let d := d * freqBandMultiplier bands frequency_mhz
  if signal_dbm < -80 then d * 1.5
  else if signal_dbm > -40 then d * 0.8
  else d

/-- `DistanceCalculationEngine._fallback_distance_estimate`
(`reference_signal = -30`, `reference_distance = 1.0`, 6 dB per
doubling). -/
def fallback_distance_estimate (signal_dbm : ℝ) : ℝ :=
  if signal_dbm ≥ -30 then 1.0
  else 1.0 * (2 : ℝ) ^ ((-30 - signal_dbm) / 6)

open Classical in
/-- Round-half-to-even to an integer (the tie rule of Python `round`). -/
def rhe (x : ℝ) : ℤ :=
  if Int.fract x < 1 / 2 then ⌊x⌋
  else if 1 / 2 < Int.fract x then ⌊x⌋ + 1
  else if Even ⌊x⌋ then ⌊x⌋ else ⌊x⌋ + 1

/-- Python `round(x, 1)` on the real value. -/
def pyRound1 (x : ℝ) : ℝ := (rhe (x * 10) : ℝ) / 10

open Classical in
/-- `DistanceCalculationEngine.calculate_distance`.  The whole body sits
in a `try/except Exception` whose handler returns
`_fallback_distance_estimate(signal_dbm)`; over real arithmetic the body
cannot raise (the per-formula `ValueError` branches are modelled inside
the formulas), but over Python floats it can (`OverflowError` from
`10 ** x` at extreme inputs escapes the per-formula clauses, which catch
only `ValueError`/`ZeroDivisionError`), so the handler's activation is an
explicit input `exc`. -/
def calculate_distance (exc : Bool) (signal_dbm : ℝ) (frequency_mhz : ℤ)
    (tx_power_dbm : Option ℝ) : ℝ :=
  if exc then fallback_distance_estimate signal_dbm
  else
    let tx := tx_power_dbm.getD (estimate_tx_power frequency_mhz)
    let combined :=
      0.3 * calculate_fspl_distance signal_dbm frequency_mhz tx +
      0.5 * calculate_log_normal_distance signal_dbm frequency_mhz tx +
      0.2 * calculate_itu_indoor_distance signal_dbm frequency_mhz tx
    let corrected := apply_corrections defaultSignalRanges defaultFreqBands
      combined signal_dbm frequency_mhz
    pyRound1 (max 0.5 (min 2000.0 corrected))

end

end DistanceEngine

namespace DistanceEngine

lemma rhe_floor_le (x : ℝ) : ⌊x⌋ ≤ rhe x ∧ rhe x ≤ ⌊x⌋ + 1 := by
  unfold rhe
  split_ifs <;> omega

lemma rhe_intCast (n : ℤ) : rhe (n : ℝ) = n := by
  unfold rhe
  rw [Int.fract_intCast, if_pos (by norm_num : (0 : ℝ) < 1 / 2),
    Int.floor_intCast]

lemma rhe_mono {x y : ℝ} (h : x ≤ y) : rhe x ≤ rhe y := by
  have hf : ⌊x⌋ ≤ ⌊y⌋ := Int.floor_le_floor h
  rcases lt_or_eq_of_le hf with hlt | heq
  · have h1 := rhe_floor_le x
    have h2 := rhe_floor_le y
    omega
  · have hfr : Int.fract x ≤ Int.fract y := by
      simp only [Int.fract]
      rw [heq]
      exact sub_le_sub_right h _
    unfold rhe
    rw [heq]
    split_ifs <;> first | omega | linarith

lemma pyRound1_mono {x y : ℝ} (h : x ≤ y) : pyRound1 x ≤ pyRound1 y := by
  unfold pyRound1
  have h1 : rhe (x * 10) ≤ rhe (y * 10) :=
    rhe_mono (mul_le_mul_of_nonneg_right h (by norm_num))
  have h2 : ((rhe (x * 10) : ℤ) : ℝ) ≤ ((rhe (y * 10) : ℤ) : ℝ) :=
    Int.cast_le.mpr h1
  linarith

lemma pyRound1_bounds {y : ℝ} (h05 : 0.5 ≤ y) (h2000 : y ≤ 2000) :
    0.5 ≤ pyRound1 y ∧ pyRound1 y ≤ 2000 := by
  have e5 : rhe ((5 : ℤ) : ℝ) = 5 := rhe_intCast 5
  have e2 : rhe ((20000 : ℤ) : ℝ) = 20000 := rhe_intCast 20000
  have m1 : rhe ((5 : ℤ) : ℝ) ≤ rhe (y * 10) := by
    apply rhe_mono; push_cast; linarith
  have m2 : rhe (y * 10) ≤ rhe ((20000 : ℤ) : ℝ) := by
    apply rhe_mono; push_cast; linarith
  rw [e5] at m1
  rw [e2] at m2
  unfold pyRound1
  have c1 : ((5 : ℤ) : ℝ) ≤ (rhe (y * 10) : ℝ) := Int.cast_le.mpr m1
  have c2 : ((rhe (y * 10) : ℤ) : ℝ) ≤ ((20000 : ℤ) : ℝ) := Int.cast_le.mpr m2
  push_cast at c1 c2
  constructor <;> linarith

lemma calculate_fspl_distance_nonneg (s : ℝ) (f : ℤ) (tx : ℝ) :
    0 ≤ calculate_fspl_distance s f tx := by
  unfold calculate_fspl_distance
  split_ifs
  · norm_num
  · exact le_trans (by norm_num) (le_max_left _ _)

lemma calculate_log_normal_distance_nonneg (s : ℝ) (f : ℤ) (tx : ℝ) :
    0 ≤ calculate_log_normal_distance s f tx := by
  unfold calculate_log_normal_distance
  exact le_trans (by norm_num) (le_max_left _ _)

lemma calculate_itu_indoor_distance_nonneg (s : ℝ) (f : ℤ) (tx : ℝ) :
    0 ≤ calculate_itu_indoor_distance s f tx := by
  unfold calculate_itu_indoor_distance
  split_ifs
  all_goals norm_num [le_max_iff]

lemma calculate_fspl_distance_anti {s1 s2 : ℝ} (f : ℤ) (tx : ℝ)
    (h : s1 ≤ s2) :
    calculate_fspl_distance s2 f tx ≤ calculate_fspl_distance s1 f tx := by
  unfold calculate_fspl_distance
  split_ifs
  · exact le_refl _
  · exact max_le_max (le_refl _)
      (Real.rpow_le_rpow_of_exponent_le (by norm_num) (by linarith))

lemma calculate_log_normal_distance_anti {s1 s2 : ℝ} (f : ℤ) (tx : ℝ)
    (h : s1 ≤ s2) :
    calculate_log_normal_distance s2 f tx ≤
      calculate_log_normal_distance s1 f tx := by
  unfold calculate_log_normal_distance
  apply max_le_max (le_refl _)
  rw [(by norm_num : (1.0 : ℝ) = 1), one_mul, one_mul]
  exact Real.rpow_le_rpow_of_exponent_le (by norm_num) (by linarith)

lemma calculate_itu_indoor_distance_anti {s1 s2 : ℝ} (f : ℤ) (tx : ℝ)
    (h : s1 ≤ s2) :
    calculate_itu_indoor_distance s2 f tx ≤
      calculate_itu_indoor_distance s1 f tx := by
  unfold calculate_itu_indoor_distance
  split_ifs
  · exact le_refl _
  · exact max_le_max (le_refl _)
      (Real.rpow_le_rpow_of_exponent_le (by norm_num) (by linarith))
  · exact max_le_max (le_refl _)
      (Real.rpow_le_rpow_of_exponent_le (by norm_num) (by linarith))

lemma apply_corrections_default (c s : ℝ) (f : ℤ) :
    apply_corrections defaultSignalRanges defaultFreqBands c s f =
      c * (if s < -80 then 1.5 else if s > -40 then 0.8 else 1) := by
  simp only [apply_corrections, defaultSignalRanges, defaultFreqBands,
    get_signal_range_info, freqBandMultiplier]
  split_ifs <;> ring

lemma fallback_distance_estimate_anti {s1 s2 : ℝ} (h : s1 ≤ s2) :
    fallback_distance_estimate s2 ≤ fallback_distance_estimate s1 := by
  unfold fallback_distance_estimate
  rw [(by norm_num : (1.0 : ℝ) = 1)]
  simp only [one_mul]
  split_ifs with ha hb hb
  · exact le_refl _
  · calc (1 : ℝ) = (2 : ℝ) ^ (0 : ℝ) := (Real.rpow_zero 2).symm
    _ ≤ (2 : ℝ) ^ ((-30 - s1) / 6) :=
      Real.rpow_le_rpow_of_exponent_le (by norm_num) (by linarith)
  · exact absurd ha (by push_neg; linarith)
  · exact Real.rpow_le_rpow_of_exponent_le (by norm_num) (by linarith)

lemma fallback_distance_estimate_ge_one (s : ℝ) :
    1 ≤ fallback_distance_estimate s := by
  unfold fallback_distance_estimate
  rw [(by norm_num : (1.0 : ℝ) = 1)]
  simp only [one_mul]
  split_ifs with ha
  · norm_num
  · calc (1 : ℝ) = (2 : ℝ) ^ (0 : ℝ) := (Real.rpow_zero 2).symm
    _ ≤ (2 : ℝ) ^ ((-30 - s) / 6) :=
      Real.rpow_le_rpow_of_exponent_le (by norm_num) (by push_neg at ha; linarith)

lemma calculate_distance_false_eq (s : ℝ) (f : ℤ) (tx : Option ℝ) :
    calculate_distance false s f tx =
      pyRound1 (max 0.5 (min 2000.0
        (apply_corrections defaultSignalRanges defaultFreqBands
          (0.3 * calculate_fspl_distance s f (tx.getD (estimate_tx_power f)) +
           0.5 * calculate_log_normal_distance s f (tx.getD (estimate_tx_power f)) +
           0.2 * calculate_itu_indoor_distance s f (tx.getD (estimate_tx_power f)))
          s f))) := by
  simp [calculate_distance]

lemma calculate_distance_main_anti (f : ℤ) (tx : Option ℝ) {s1 s2 : ℝ}
    (h : s1 ≤ s2) :
    calculate_distance false s2 f tx ≤ calculate_distance false s1 f tx := by
  rw [calculate_distance_false_eq, calculate_distance_false_eq]
  set t := tx.getD (estimate_tx_power f) with ht
  have hf := calculate_fspl_distance_anti f t h
  have hl := calculate_log_normal_distance_anti f t h
  have hi := calculate_itu_indoor_distance_anti f t h
  have hfn := calculate_fspl_distance_nonneg s2 f t
  have hln := calculate_log_normal_distance_nonneg s2 f t
  have hin := calculate_itu_indoor_distance_nonneg s2 f t
  set c2 := 0.3 * calculate_fspl_distance s2 f t +
    0.5 * calculate_log_normal_distance s2 f t +
    0.2 * calculate_itu_indoor_distance s2 f t with hc2
  set c1 := 0.3 * calculate_fspl_distance s1 f t +
    0.5 * calculate_log_normal_distance s1 f t +
    0.2 * calculate_itu_indoor_distance s1 f t with hc1
  have hc : c2 ≤ c1 := by rw [hc1, hc2]; linarith
  have hc2n : 0 ≤ c2 := by rw [hc2]; linarith
  have hc1n : 0 ≤ c1 := le_trans hc2n hc
  have hcor : apply_corrections defaultSignalRanges defaultFreqBands c2 s2 f ≤
      apply_corrections defaultSignalRanges defaultFreqBands c1 s1 f := by
    rw [apply_corrections_default, apply_corrections_default]
    split_ifs <;> linarith
  exact pyRound1_mono (max_le_max (le_refl _) (min_le_min (le_refl _) hcor))

end DistanceEngine

/-- C2 (amended): when the three-formula weighted combination completes
(no exception escapes the body), `calculate_distance` always returns a
value clamped to `[0.5, 2000.0]`; when the result is instead produced by
the fallback estimation path (the `except Exception` handler), it is
bounded below by `1.0` but is *not* clamped above — see the
counterexample. -/
theorem C2_distance_clamped_on_main_path :
    (∀ (signal_dbm : ℝ) (frequency_mhz : ℤ) (tx_power_dbm : Option ℝ),
      0.5 ≤ DistanceEngine.calculate_distance false signal_dbm frequency_mhz
          tx_power_dbm ∧
        DistanceEngine.calculate_distance false signal_dbm frequency_mhz
          tx_power_dbm ≤ 2000) ∧
    (∀ signal_dbm : ℝ,
      1 ≤ DistanceEngine.fallback_distance_estimate signal_dbm) := by
  constructor
  · intro s f tx
    rw [DistanceEngine.calculate_distance_false_eq]
    exact DistanceEngine.pyRound1_bounds (le_max_left _ _)
      (max_le (by norm_num) (le_trans (min_le_left _ _) (by norm_num)))
  · exact DistanceEngine.fallback_distance_estimate_ge_one

/-- C2 counterexample: with the fallback path active (in Python, for
example `calculate_distance(-96, 2412, tx_power_dbm=7000)`, where
`10 ** 352.8` raises `OverflowError` inside the FSPL formula and the
outer handler returns `_fallback_distance_estimate(-96)`), the result is
`2 ^ 11 = 2048.0 > 2000` — the final clamp is bypassed. -/
theorem C2_counterexample :
    DistanceEngine.calculate_distance true (-96) 2412 none = 2048 ∧
    ¬ DistanceEngine.calculate_distance true (-96) 2412 none ≤ 2000 := by
  have h : DistanceEngine.calculate_distance true (-96) 2412 none = 2048 := by
    rw [DistanceEngine.calculate_distance]
    simp only [if_true]
    rw [DistanceEngine.fallback_distance_estimate,
      if_neg (by norm_num : ¬ ((-96 : ℝ) ≥ -30)),
      (by norm_num : (1.0 : ℝ) = 1), one_mul,
      (by norm_num : ((-30 : ℝ) - (-96)) / 6 = ((11 : ℕ) : ℝ)),
      Real.rpow_natCast]
    norm_num
  exact ⟨h, by rw [h]; norm_num⟩

/-- Witness for C2: the main path at a concrete input stays in bounds,
and the fallback is at least 1 m at a concrete signal. -/
theorem C2_witness :
    (0.5 ≤ DistanceEngine.calculate_distance false (-45) 2437 none ∧
      DistanceEngine.calculate_distance false (-45) 2437 none ≤ 2000) ∧
    1 ≤ DistanceEngine.fallback_distance_estimate (-55) :=
  ⟨C2_distance_clamped_on_main_path.1 (-45) 2437 none,
   C2_distance_clamped_on_main_path.2 (-55)⟩

/-- C7: holding the frequency (and the transmit-power argument, and the
path taken) fixed, the distance estimate is monotonically non-increasing
in the signal strength: a stronger signal never yields a strictly larger
estimate.  This covers the three-formula path (including its clamping,
correction multipliers and rounding) and the fallback path alike. -/
theorem C7_distance_antitone_in_signal :
    ∀ (exc : Bool) (frequency_mhz : ℤ) (tx_power_dbm : Option ℝ)
      (s1 s2 : ℝ), s1 ≤ s2 →
      DistanceEngine.calculate_distance exc s2 frequency_mhz tx_power_dbm ≤
        DistanceEngine.calculate_distance exc s1 frequency_mhz tx_power_dbm := by
  intro exc f tx s1 s2 h
  cases exc with
  | false => exact DistanceEngine.calculate_distance_main_anti f tx h
  | true =>
    rw [DistanceEngine.calculate_distance, DistanceEngine.calculate_distance]
    simp only [if_true]
    exact DistanceEngine.fallback_distance_estimate_anti h

/-- Witness for C7 at −60 ≤ −50 dBm on the main path. -/
theorem C7_witness :
    DistanceEngine.calculate_distance false (-50) 2412 none ≤
      DistanceEngine.calculate_distance false (-60) 2412 none :=
  C7_distance_antitone_in_signal false 2412 none (-60) (-50) (by norm_num)
